import Mathlib

/-!
# Verification of the digitalarzraster raster-transform engine

Shallow embedding of the repository (src/io/rio_raster.py together with its two
I/O helper modules) and proofs about its specified behaviour.  Pixel values and
georeferencing coefficients are modelled as exact rationals, machine state
(filesystem, handle) is passed explicitly, and fallible Python code is modelled
with Except.  Functions of the underlying geospatial libraries that the code
calls (rasterio, shapely, geopandas) are modelled at the interface boundary the
source uses: the polygon mask routine and the AOI reprojection are parameters of
the clip embedding, affine inversion and flooring follow rasterio.transform, and
bounding-box intersection follows shapely box semantics (closed rectangles).
-/

namespace DAR

/-- Python str.lower as applied to the ASCII CRS strings compared at
rio_raster.py:304. -/
def strLower (s : String) : String := String.mk (s.toList.map Char.toLower)

/-- Character-list prefix test, used to model the Python in operator on str. -/
def chPre : List Char → List Char → Bool
  | [], _ => true
  | _ :: _, [] => false
  | a :: as, b :: bs => a == b && chPre as bs

/-- Contiguous-sublist test on character lists. -/
def chSub (n : List Char) : List Char → Bool
  | [] => n.isEmpty
  | c :: t => chPre n (c :: t) || chSub n t

/-- Python substring containment: needle in hay. -/
def strIn (needle hay : String) : Bool := chSub needle.toList hay.toList

/-- Mathematical floor on rationals, as math.floor used by
rasterio.transform.rowcol (the default op of rowcol). -/
def pyFloor (q : ℚ) : Int := q.num / q.den

lemma pyFloor_eq_floor (q : ℚ) : pyFloor q = ⌊q⌋ := by
  rw [Rat.floor_def]; rfl

lemma pyFloor_intCast (n : ℤ) : pyFloor ((n : ℤ) : ℚ) = n := by
  rw [pyFloor_eq_floor]; exact Int.floor_intCast n

/-- Python exception taxonomy raised or caught by the embedded code. -/
inductive PyErr
  | fileNotFound (msg : String)
  | valueError (msg : String)
  | nameError (msg : String)
  | attributeError (msg : String)
  | rasterioIOError (msg : String)
  | fileExists (msg : String)
  | indexError (msg : String)
deriving DecidableEq

deriving instance DecidableEq for Except

/-- Affine georeferencing transform with coefficients a, b, c, d, e, f mapping
pixel (col, row) to world (x, y): x = a*col + b*row + c, y = d*col + e*row + f. -/
structure AffineT where
  a : ℚ
  b : ℚ
  c : ℚ
  d : ℚ
  e : ℚ
  f : ℚ
deriving DecidableEq

/-- Rectangular extent (minx, miny, maxx, maxy), the tuple layout expected at
rio_raster.py:310. -/
structure BBox where
  left : ℚ
  bottom : ℚ
  right : ℚ
  top : ℚ
deriving DecidableEq

/-- A single band as a row-major grid of pixel values. -/
abbrev Mat := List (List ℚ)

/-- The rasterio dataset metadata dictionary: driver, width, height, count,
dtype, crs, transform, nodata. -/
structure DsMeta where
  driver : String
  width : Int
  height : Int
  count : Nat
  dtype : String
  crs : String
  transform : AffineT
  nodata : Option ℚ
deriving DecidableEq

/-- An open rasterio dataset: its virtual-path name, metadata, band-major pixel
data and per-band descriptions. -/
structure Dataset where
  name : String
  meta : DsMeta
  data : List Mat
  descriptions : List (Option String)
deriving DecidableEq

/-- The RioRaster handle: owns an optional dataset reference
(rio_raster.py:16-17); the handle is empty when the reference is null. -/
structure RioRasterH where
  dataset : Option Dataset
deriving DecidableEq

/-- Payload of a numpy array by rank: 0-D scalar, 1-D vector, 2-D single-band
grid, or 3-D band-major stack. -/
inductive ArrData
  | d0 (x : ℚ)
  | d1 (v : List ℚ)
  | d2 (m : Mat)
  | d3 (l : List Mat)
deriving DecidableEq

/-- A numpy array: its dtype string together with its data. -/
structure NpArr where
  dtype : String
  data : ArrData
deriving DecidableEq

/-- True for the raster array ranks of the data model (2-D single band or 3-D
band-major stack). -/
def arrIs23 : ArrData → Bool
  | .d2 _ => true
  | .d3 _ => true
  | _ => false

/-- Filesystem entry: a directory, a georeferenced raster file, or a plain text
file (such as a .prj sidecar holding WKT). -/
inductive FSEntry
  | dir
  | rasterFile (d : Dataset)
  | textFile (s : String)
deriving DecidableEq

/-- Filesystem state as an association list from paths to entries; an earlier
entry shadows a later one with the same path. -/
abbrev FS := List (String × FSEntry)

def fsLookup (fs : FS) (p : String) : Option FSEntry :=
  (fs.find? (fun e => e.1 == p)).map (fun e => e.2)

/-- Model of os.path.exists. -/
def fsExists (fs : FS) (p : String) : Bool := (fsLookup fs p).isSome

/-- An AOI feature at the interface the clip code consumes: geopandas exposes
each feature bounds row as [minx, miny, maxx, maxy] (rio_raster.py:316); the
geometry itself is only ever handed onward to the external mask routine. -/
structure GeoFeature where
  minx : ℚ
  miny : ℚ
  maxx : ℚ
  maxy : ℚ
deriving DecidableEq

/-- A geopandas GeoDataFrame at the interface the clip code uses: a CRS string
and the list of features. -/
structure GeoDataFrame where
  crs : String
  features : List GeoFeature
deriving DecidableEq

/-- The aoi argument of clip_raster: either a GeoDataFrame or a bare
polygon/multipolygon to be wrapped with the crs parameter
(rio_raster.py:301-302). -/
inductive AoiInput
  | gdf (g : GeoDataFrame)
  | geom (fe : GeoFeature)
deriving DecidableEq

/-- Arguments the clip code passes to rasterio.mask.mask: the crop flag and the
nodata sentinel (rio_raster.py:336). -/
structure MaskArgs where
  crop : Bool
  nodata : ℚ
deriving DecidableEq

/-- Observable outcome of clip_raster: the state of the calling handle after
the call, the handle the call returns, and the arguments of the mask
invocation if one happened. -/
structure ClipResult where
  selfH : RioRasterH
  result : RioRasterH
  maskCall : Option MaskArgs
deriving DecidableEq

/-- A threshold rule condition: strictly-less-than, strictly-greater-than, or a
closed range (rio_raster.py:392-397). -/
inductive ThreshCond
  | lt (v : ℚ)
  | gt (v : ℚ)
  | range (lo hi : ℚ)
deriving DecidableEq

/-- The ordered threshold rule set: class label, condition, output code. -/
abbrev Thresholds := List (String × ThreshCond × ℚ)

/-- The src argument of set_dataset: an already-open dataset or a path string. -/
inductive Src
  | reader (d : Dataset)
  | path (s : String)

/-- Interface type of rasterio.mask.mask as the clip code calls it: dataset,
geometry list, crop/nodata arguments; returns the cropped band-major array and
the output transform.  The routine itself belongs to the external raster
library and is a parameter of the embedding. -/
abbrev MaskFn := Dataset → List GeoFeature → MaskArgs → List Mat × AffineT

/-- Interface type of GeoDataFrame.to_crs: reproject an AOI to a target CRS.
External planar-geometry library, a parameter of the embedding. -/
abbrev ToCrsFn := GeoDataFrame → String → GeoDataFrame

/-! ## Raster Handle accessors (rio_raster.py:87-232) -/

/-- Accessor get_crs (rio_raster.py:207-209): the CRS of the dataset; on an
empty handle the attribute access on None raises. -/
def get_crs (st : RioRasterH) : Except PyErr String :=
  match st.dataset with
  | some ds => .ok ds.meta.crs
  | none => .error (.attributeError "NoneType object has no attribute crs")

/-- Accessor get_geo_transform (rio_raster.py:211-218): the affine transform
stored in the dataset profile. -/
def get_geo_transform (st : RioRasterH) : Except PyErr AffineT :=
  match st.dataset with
  | some ds => .ok ds.meta.transform
  | none => .error (.attributeError "NoneType object has no attribute profile")

/-- Accessor get_nodata_value (rio_raster.py:220-222): the nodata entry of the
dataset metadata. -/
def get_nodata_value (st : RioRasterH) : Except PyErr (Option ℚ) :=
  match st.dataset with
  | some ds => .ok ds.meta.nodata
  | none => .error (.attributeError "NoneType object has no attribute meta")

/-- Python truthiness of the band argument at rio_raster.py:177: None and 0 are
falsy, any positive band number is truthy. -/
def bandTruthy (band : Option Nat) : Bool := band.getD 0 != 0

/-- Read operation get_data_array (rio_raster.py:166-191).  A truthy band reads
that one band as a 2-D array (1-indexed; callers stay in range, out-of-range
defaults to an empty grid where rasterio would raise); otherwise the whole
stack is read as a 3-D band-major array of the dataset dtype.  The
convert_no_data_2_nan branch rewrites sentinel pixels to floating NaN, which
has no counterpart among exact rationals; every claim uses the default False,
so the embedding models only that default. -/
def get_data_array (st : RioRasterH) (band : Option Nat) : Except PyErr NpArr :=
  match st.dataset with
  | some ds =>
      if bandTruthy band then
        .ok { dtype := ds.meta.dtype, data := .d2 (ds.data.getD (band.getD 0 - 1) []) }
      else
        .ok { dtype := ds.meta.dtype, data := .d3 ds.data }
  | none => .error (.valueError "raster dataset is empty")

/-- Modelled from the spec: the Raster Handle exposes a bounding-box metadata
accessor (spec section 3 lists the raster bounding box among handle metadata and
section 4.3 step 3 computes the raster bounding box from the handle).  The
method get_bounds is called at rio_raster.py:310 and 363 with expected result
(minx, miny, maxx, maxy), but its definition is not under src/.  It is the
dataset extent spanned by the affine transform over the width x height grid,
as rasterio derives it from the corner pixels (0, 0) and (width, height). -/
def get_bounds (ds : Dataset) : BBox :=
  let t := ds.meta.transform
  let w : ℚ := (ds.meta.width : ℤ)
  let h : ℚ := (ds.meta.height : ℤ)
  { left := t.c, bottom := t.d * w + t.e * h + t.f,
    right := t.a * w + t.b * h + t.c, top := t.f }

/-- Modelled from the spec: the Raster Handle exposes a band-count metadata
accessor (spec section 3: band count/shape).  The method
get_spectral_resolution is called at rio_raster.py:403 but its definition is
not under src/; it returns the dataset band count. -/
def get_spectral_resolution (ds : Dataset) : Nat := ds.meta.count

/-- Shapely closed-rectangle intersection, as box(*raster_bounds) and
box(*aoi_bounds) intersect at rio_raster.py:313-319: rectangles that merely
touch do intersect. -/
def boxIntersects (r : BBox) (g : GeoFeature) : Bool :=
  decide (r.left ≤ g.maxx) && decide (g.minx ≤ r.right) &&
  decide (r.bottom ≤ g.maxy) && decide (g.miny ≤ r.top)

/-! ## Dataset materializer (rio_raster.py:52-73 and 247-289) -/

/-- A finalized in-memory dataset as rio.MemoryFile().open(**meta) produces it
after the band writes: the memory virtual path, the supplied metadata, the
written bands, and the band descriptions (defaulting to None per band). -/
def mkMemDataset (bands : List Mat) (meta : DsMeta)
    (descriptions : Option (List (Option String))) : Dataset :=
  { name := "/vsimem/memfile", meta := meta, data := bands,
    descriptions := descriptions.getD (List.replicate meta.count none) }

/-- Static method rio_dataset_from_array (rio_raster.py:52-73): band count is 1
for a 2-D array and the leading dimension for a 3-D one; each band is written
into a fresh memory dataset carrying the given metadata, descriptions are
applied when supplied, and the finalized dataset is reopened.  Writing a 0-D or
1-D array fails in numpy indexing (data[i, :, :]). -/
def rio_dataset_from_array (data : ArrData) (meta : DsMeta)
    (descriptions : Option (List (Option String))) : Except PyErr Dataset :=
  match data with
  | .d2 m => .ok (mkMemDataset [m] meta descriptions)
  | .d3 l => .ok (mkMemDataset l meta descriptions)
  | _ => .error (.indexError "too many indices for array")

/-! ## Opening a handle (rio_raster.py:19-50 and 75-85) -/

/-- Body of the try block of set_dataset (rio_raster.py:31-48): bind a dataset
from an already-open reader (round-tripping python-filelike readers through a
memory copy), from a memory virtual path, or from an existing file path opened
in r+ mode; a missing file path raises FileNotFoundError, and a final guard
raises ValueError if no dataset was bound. -/
def set_dataset_try (fs : FS) (st : RioRasterH) (src : Src) :
    Except PyErr RioRasterH := do
  let st1 : RioRasterH ←
    match src with
    | .reader ds =>
        if strIn "/vsipythonfilelike/" ds.name then do
          let d ← rio_dataset_from_array (.d3 ds.data) ds.meta none
          pure { st with dataset := some d }
        else
          pure { st with dataset := some ds }
    | .path s =>
        if strIn "/vsimem/" s then
          -- rio.MemoryFile(src) / memfile.open(): resolve the virtual path
          match fsLookup fs s with
          | some (.rasterFile d) => pure { st with dataset := some { d with name := s } }
          | _ => Except.error (.rasterioIOError ("unable to open memory file " ++ s))
        else if fsExists fs s then
          -- rio.open(src, mode r+)
          match fsLookup fs s with
          | some (.rasterFile d) => pure { st with dataset := some { d with name := s } }
          | _ => Except.error (.rasterioIOError ("not a recognized raster file: " ++ s))
        else
          Except.error (.fileNotFound ("Raster file not available at " ++ s))
  if st1.dataset.isNone then
    Except.error (.valueError "Dataset could not be set. It is None.")
  else
    pure st1

/-- Method set_dataset (rio_raster.py:25-50): the whole body runs inside
try/except Exception with traceback.print_exc(), so every error is swallowed
and the handle attribute is left as it was (no assignment happens before any
raising point on the failing paths). -/
def set_dataset (fs : FS) (st : RioRasterH) (src : Src) : RioRasterH :=
  match set_dataset_try fs st src with
  | .ok st1 => st1
  | .error _ => st

/-- Opaque model of CRS.from_wkt (rio_raster.py:85): parsing WKT text into a
CRS, represented injectively by tagging the WKT content. -/
def crsFromWkt (wkt : String) : String := "WKT " ++ wkt

/-- Model of os.path.splitext as used at rio_raster.py:81: split off the
extension of the final path component; the returned extension includes its
leading dot and is empty when the basename has no dot or only leading dots. -/
def splitext (p : String) : String × String :=
  let cs := p.toList
  let idxs := List.range cs.length
  let sepIdx : Int :=
    idxs.foldl (fun acc i => if cs.getD i ' ' == '/' then (i : Int) else acc) (-1)
  let dotIdx : Int :=
    idxs.foldl (fun acc i => if cs.getD i ' ' == '.' then (i : Int) else acc) (-1)
  if sepIdx < dotIdx then
    let start := (sepIdx + 1).toNat
    let stem := (cs.drop start).take (dotIdx.toNat - start)
    if stem.any (fun ch => ch != '.') then
      (String.mk (cs.take dotIdx.toNat), String.mk (cs.drop dotIdx.toNat))
    else (p, "")
  else (p, "")

/-- Method add_crs_from_prj (rio_raster.py:75-85): split the extension of the
sidecar path and, only when that extension equals the literal string prj (with
no dot), read the file and overwrite the dataset CRS with the parsed WKT. -/
def add_crs_from_prj (fs : FS) (st : RioRasterH) (prj_file : String) : RioRasterH :=
  if (splitext prj_file).2 == "prj" then
    match fsLookup fs prj_file, st.dataset with
    | some (.textFile wkt), some ds =>
        { st with dataset := some { ds with meta := { ds.meta with crs := crsFromWkt wkt } } }
    | _, _ => st
  else st

/-- Constructor RioRaster.__init__ (rio_raster.py:19-23): bind the dataset when
a source is given, then apply the .prj sidecar when one is supplied and exists
on disk. -/
def rioRasterInit (fs : FS) (src : Option Src) (prj_path : Option String) : RioRasterH :=
  match src with
  | none => { dataset := none }
  | some s =>
      let st := set_dataset fs { dataset := none } s
      match prj_path with
      | some p => if fsExists fs p then add_crs_from_prj fs st p else st
      | none => st

/-- Static method raster_from_array (rio_raster.py:247-289): infer bands, rows
and cols from the array rank, open a memory dataset with driver GTiff and the
supplied CRS, transform, nodata and the array dtype, write the bands, reopen,
and wrap in a new RioRaster handle.  Any error (here: the tuple unpacking of a
0-D or 1-D shape at line 265) is caught, printed, and None is returned. -/
def raster_from_array (img_arr : NpArr) (crs : String) (g_transform : AffineT)
    (nodata_value : Option ℚ) : Option RioRasterH :=
  match img_arr.data with
  | .d2 m =>
      let meta : DsMeta :=
        { driver := "GTiff", height := (m.length : Int),
          width := ((m.headD []).length : Int), count := 1,
          dtype := img_arr.dtype, crs := crs, transform := g_transform,
          nodata := nodata_value }
      some (rioRasterInit [] (some (.reader (mkMemDataset [m] meta none))) none)
  | .d3 l =>
      let meta : DsMeta :=
        { driver := "GTiff", height := ((l.headD []).length : Int),
          width := (((l.headD []).headD []).length : Int), count := l.length,
          dtype := img_arr.dtype, crs := crs, transform := g_transform,
          nodata := nodata_value }
      some (rioRasterInit [] (some (.reader (mkMemDataset l meta none))) none)
  | _ => none

/-- Method rio_raster_from_array (rio_raster.py:234-245): materialize an array
re-using the CRS, geotransform and nodata of this handle; on an empty handle
the metadata accessors raise. -/
def rio_raster_from_array (st : RioRasterH) (img_arr : NpArr) :
    Except PyErr (Option RioRasterH) :=
  match st.dataset with
  | none => .error (.attributeError "NoneType object has no attribute meta")
  | some ds => .ok (raster_from_array img_arr ds.meta.crs ds.meta.transform ds.meta.nodata)

/-! ## File writing (rio_raster.py:95-145) -/

/-- Model of os.makedirs(path, exist_ok=True) restricted to the leaf entry the
claims observe: an existing directory is accepted, an existing non-directory
raises FileExistsError, otherwise a directory entry is created at the path
(intermediate parents, which os.makedirs also creates, do not affect any later
access to the leaf path and are not tracked). -/
def makedirsExistOk (fs : FS) (p : String) : Except PyErr FS :=
  match fsLookup fs p with
  | some .dir => .ok fs
  | some _ => .error (.fileExists p)
  | none => .ok ((p, FSEntry.dir) :: fs)

/-- Byte size of one element of a numpy dtype, for the BIGTIFF sizing at
rio_raster.py:114. -/
def dtypeItemsize (dtype : String) : Nat :=
  if dtype == "uint8" || dtype == "int8" then 1
  else if dtype == "uint16" || dtype == "int16" then 2
  else if dtype == "uint32" || dtype == "int32" || dtype == "float32" then 4
  else 8

/-- Shape of an array as numpy reports it, flattened to the three numbers the
writer needs; rank below 2 carries its own shape tuple and is handled at the
unpacking site. -/
def arrShapeProd : ArrData → Nat
  | .d0 _ => 1
  | .d1 v => v.length
  | .d2 m => m.length * (m.headD []).length
  | .d3 l => l.length * (l.headD []).length * ((l.headD []).headD []).length

/-- Model of ndarray.nbytes. -/
def arrNbytes (a : NpArr) : Nat := dtypeItemsize a.dtype * arrShapeProd a.data

/-- The bands/rows/cols unpacking at rio_raster.py:117-122: a 2-D array is one
band, a 3-D array unpacks its shape; unpacking the shape of a 0-D or 1-D array
raises ValueError. -/
def shapeBandsRowsCols : ArrData → Except PyErr (Nat × Nat × Nat)
  | .d2 m => .ok (1, m.length, (m.headD []).length)
  | .d3 l => .ok (l.length, (l.headD []).length, ((l.headD []).headD []).length)
  | _ => .error (.valueError "not enough values to unpack shape into bands rows cols")

/-- Band descriptions assigned at rio_raster.py:136-137: band i gets the i-th
supplied name when present. -/
def descrFromNames (bands : Nat) (band_names : List String) : List (Option String) :=
  (List.range bands).map (fun i => band_names.get? i)

/-- Model of rio.open(path, w, ...): opening for write over an existing
directory fails with RasterioIOError; otherwise the raster file is created
(shadowing any earlier entry at the path). -/
def rioOpenWrite (fs : FS) (p : String) (d : Dataset) : Except PyErr FS :=
  match fsLookup fs p with
  | some .dir => .error (.rasterioIOError ("Attempt to create new tiff file " ++ p ++ " failed"))
  | _ => .ok ((p, FSEntry.rasterFile d) :: fs)

/-- Static method write_to_file (rio_raster.py:95-145).  Returns the filesystem
after the call together with the exception escaping to the caller, if any.  The
body first calls os.makedirs on the destination path itself, chooses the COG
driver for a .cog extension (case-insensitive) and GTiff otherwise, sizes
BIGTIFF from the array byte count, unpacks bands/rows/cols, then opens the
destination for write and writes compressed bands with their descriptions
(plus the fixed overview pyramid for COG, which adds no observable state
here).  Only rasterio.RasterioIOError is caught and printed; anything else
propagates. -/
def write_to_file (fs : FS) (img_des : String) (data : NpArr) (crs : String)
    (affine_transform : AffineT) (nodata_value : Option ℚ)
    (band_names : List String) : FS × Option PyErr :=
  match makedirsExistOk fs img_des with
  | .error e => (fs, some e)
  | .ok fs1 =>
      let driver := if (strLower img_des).endsWith ".cog" then "COG" else "GTiff"
      let _bigtiff := if arrNbytes data > 4 * 1024 * 1024 * 1024 then "YES" else "NO"
      match shapeBandsRowsCols data.data with
      | .error e => (fs1, some e)
      | .ok (bands, rows, cols) =>
          let meta : DsMeta :=
            { driver := driver, height := (rows : Int), width := (cols : Int),
              count := bands, dtype := data.dtype, crs := crs,
              transform := affine_transform, nodata := nodata_value }
          let written : Dataset :=
            { name := img_des, meta := meta,
              data := match data.data with
                      | .d2 m => [m]
                      | .d3 l => l
                      | _ => [],
              descriptions := descrFromNames bands band_names }
          match rioOpenWrite fs1 img_des written with
          | .error (.rasterioIOError _) => (fs1, none)   -- caught and printed
          | .error e => (fs1, some e)
          | .ok fs2 => (fs2, none)

/-! ## Geometric clipper (rio_raster.py:291-354) -/

/-- The bare-geometry wrapping at rio_raster.py:301-302: a polygon or
multipolygon argument is wrapped into a one-feature GeoDataFrame carrying the
crs parameter (default 0, whose str() is the string 0). -/
def normAoi (aoiIn : AoiInput) (crsParam : String) : GeoDataFrame :=
  match aoiIn with
  | .gdf g => g
  | .geom fe => { crs := crsParam, features := [fe] }

/-- The tail of clip_raster from line 309 on, applied to the CRS-normalized
AOI geo: short-circuit to empty results when no AOI feature box intersects the
raster box, else mask with crop=True and nodata fixed to the literal 0, derive
the new metadata from the cropped array shape and the mask output transform,
materialize, and either replace the dataset of the calling handle (in_place)
or return a fresh handle. -/
def clipFromGeo (maskFn : MaskFn) (st : RioRasterH) (ds : Dataset)
    (geo : GeoDataFrame) (in_place : Bool) : Except PyErr ClipResult :=
  let raster_box := get_bounds ds
  let does_not_intersect := geo.features.all (fun fe => !(boxIntersects raster_box fe))
  if does_not_intersect then
    .ok { selfH := if in_place then { dataset := none } else st,
          result := { dataset := none }, maskCall := none }
  else
    let nodata_value : ℚ := 0
    let args : MaskArgs := { crop := true, nodata := nodata_value }
    let out := maskFn ds geo.features args
    let out_meta : DsMeta :=
      { ds.meta with
          driver := "GTiff",
          height := ((out.1.headD []).length : Int),
          width := (((out.1.headD []).headD []).length : Int),
          transform := out.2,
          nodata := some nodata_value,
          crs := ds.meta.crs }
    match rio_dataset_from_array (.d3 out.1) out_meta (some ds.descriptions) with
    | .error e => .error e
    | .ok newDs =>
        if in_place then
          .ok { selfH := { dataset := some newDs }, result := { dataset := some newDs },
                maskCall := some args }
        else
          .ok { selfH := st, result := { dataset := some newDs }, maskCall := some args }

/-- The CRS normalization at rio_raster.py:304-307: reproject the AOI to the
raster CRS exactly when the lowercased CRS strings differ, else use the AOI as
supplied. -/
def clipNormGeo (toCrs : ToCrsFn) (aoi : GeoDataFrame) (rcrs : String) : GeoDataFrame :=
  if strLower aoi.crs != strLower rcrs then toCrs aoi rcrs else aoi

/-- Method clip_raster (rio_raster.py:291-354): wrap a bare geometry, reproject
the AOI when the lowercased CRS strings differ, then proceed on the normalized
AOI.  On an empty handle the CRS accessor raises. -/
def clip_raster (maskFn : MaskFn) (toCrs : ToCrsFn) (st : RioRasterH)
    (aoiIn : AoiInput) (in_place : Bool) (crsParam : String) :
    Except PyErr ClipResult :=
  match st.dataset with
  | none => .error (.attributeError "NoneType object has no attribute crs")
  | some ds =>
      let aoi := normAoi aoiIn crsParam
      let geo := clipNormGeo toCrs aoi ds.meta.crs
      clipFromGeo maskFn st ds geo in_place

/-! ## Window aligner (rio_raster.py:356-385) -/

/-- Model of rasterio.transform.rowcol for one world point: apply the inverse
affine and floor the fractional (row, col); a non-invertible transform raises
inside the library, which the caller surfaces unchanged (guarded at the call
site in the embedding). -/
def rowcolOne (t : AffineT) (x y : ℚ) : Int × Int :=
  let det := t.a * t.e - t.b * t.d
  let colF := (t.e * (x - t.c) - t.b * (y - t.f)) / det
  let rowF := (-t.d * (x - t.c) + t.a * (y - t.f)) / det
  (pyFloor rowF, pyFloor colF)

/-- Model of rasterio.windows.transform: the transform of the window at pixel
offset (col_off, row_off) of a raster with transform t. -/
def windowTransform (t : AffineT) (col_off row_off : Int) : AffineT :=
  { t with
      c := t.a * (col_off : ℤ) + t.b * (row_off : ℤ) + t.c,
      f := t.d * (col_off : ℤ) + t.e * (row_off : ℤ) + t.f }

/-- Model of the non-boundless window read at rio_raster.py:382: the requested
window is intersected with the dataset extent and the covered pixels are
returned band by band (negative extents clamp to empty). -/
def readWindow (ds : Dataset) (col_off row_off width height : Int) : List Mat :=
  ds.data.map (fun m =>
    ((m.drop row_off.toNat).take height.toNat).map (fun row =>
      (row.drop col_off.toNat).take width.toNat))

/-- Method pad_raster (rio_raster.py:356-385): convert the bounds corners of
the destination raster to pixel rows/cols under this raster's transform, build
the corresponding window and its transform, read this raster's data for that
window, materialize a memory dataset with the windowed transform, width and
height over the otherwise unchanged metadata, and replace this handle's
dataset.  Returns the handle state after the call together with the escaping
exception, if any; on failure (empty handles, non-invertible transform) no
assignment to the handle has happened. -/
def pad_raster (st : RioRasterH) (des_raster : RioRasterH) :
    RioRasterH × Option PyErr :=
  match st.dataset, des_raster.dataset with
  | some ds, some dd =>
      let aff := ds.meta.transform
      let des_bounds := get_bounds dd
      let det := aff.a * aff.e - aff.b * aff.d
      if det = 0 then (st, some (.valueError "transform is not invertible"))
      else
        let p0 := rowcolOne aff des_bounds.left des_bounds.top
        let p1 := rowcolOne aff des_bounds.right des_bounds.bottom
        let height := p1.1 - p0.1
        let width := p1.2 - p0.2
        let window_transform := windowTransform aff p0.2 p0.1
        let kwargs : DsMeta :=
          { ds.meta with
              crs := ds.meta.crs,
              transform := window_transform,
              width := width,
              height := height }
        let data := readWindow ds p0.2 p0.1 width height
        ({ dataset := some { name := "/vsimem/memfile", meta := kwargs,
                             data := data,
                             descriptions := List.replicate kwargs.count none } },
         none)
  | _, _ => (st, some (.attributeError "NoneType object has no attribute"))

/-! ## Band reclassifier (rio_raster.py:387-414) -/

/-- The global names bound in the rio_raster module scope: the imports at
rio_raster.py:1-13 and the class defined at line 16.  No other name is bound
at module level, and none of the names below shadows a Python builtin. -/
def moduleGlobals : List String :=
  ["os", "traceback", "gpd", "np", "rio", "Union", "List", "shapely",
   "Affine", "CRS", "windows", "mask", "box", "RioRaster"]

/-- Python global-name resolution inside the rio_raster module: a name bound
neither in the module scope nor among the builtins (none of the names this
module evaluates is a builtin) raises NameError. -/
def evalGlobal (n : String) : Except PyErr Unit :=
  if moduleGlobals.contains n then .ok ()
  else .error (.nameError ("name " ++ n ++ " is not defined"))

/-- Model of np.squeeze: remove every axis of length 1, keeping the remaining
axes in order. -/
def np_squeeze : ArrData → ArrData
  | .d0 x => .d0 x
  | .d1 v => if v.length == 1 then .d0 (v.headD 0) else .d1 v
  | .d2 m =>
      let r := m.length
      let c := (m.headD []).length
      if r == 1 && c == 1 then .d0 ((m.headD []).headD 0)
      else if r == 1 then .d1 (m.headD [])
      else if c == 1 then .d1 (m.map (fun row => row.headD 0))
      else .d2 m
  | .d3 l =>
      let b := l.length
      let r := (l.headD []).length
      let c := ((l.headD []).headD []).length
      if b == 1 && r == 1 && c == 1 then .d0 (((l.headD []).headD []).headD 0)
      else if b == 1 && r == 1 then .d1 ((l.headD []).headD [])
      else if b == 1 && c == 1 then .d1 ((l.headD []).map (fun row => row.headD 0))
      else if r == 1 && c == 1 then .d1 (l.map (fun m => (m.headD []).headD 0))
      else if b == 1 then .d2 (l.headD [])
      else if r == 1 then .d2 (l.map (fun m => m.headD []))
      else if c == 1 then .d2 (l.map (fun m => m.map (fun row => row.headD 0)))
      else .d3 l

/-- One iteration of the band loop at rio_raster.py:405-409: read the band as
an array, squeeze it, then evaluate the call expression, whose first step is
resolving the module-scope name BandProcess.  That name is bound by no import
and no definition anywhere in the repository, so the lookup always fails and
nothing after it is translatable (there is no BandProcess code to model). -/
def reclassifyBandStep (ds : Dataset) (band_no : Nat) : Except PyErr Mat := do
  let img_arr ← get_data_array { dataset := some ds } (some (band_no + 1))
  let _img := np_squeeze img_arr.data
  let _bp ← evalGlobal "BandProcess"
  .error (.nameError "name BandProcess is not defined")

/-- The band loop at rio_raster.py:404-409, accumulating the per-band results. -/
def reclassifyBands (ds : Dataset) (n : Nat) : Except PyErr (List Mat) :=
  (List.range n).foldlM (fun acc band_no => do
      let classified ← reclassifyBandStep ds band_no
      pure (acc ++ [classified])) []

/-- Method reclassify_raster (rio_raster.py:387-414): resolve the effective
nodata, loop over the bands, stack the classified bands, cast to uint8 and
materialize through rio_raster_from_array.  Returns the state of the calling
handle after the call (the body never assigns to the handle) together with the
outcome.  The loop body always fails while resolving the undefined global name
BandProcess, so the only reachable success-free continuations are the NameError
(at least one band) or, for a bandless dataset (which rasterio cannot actually
produce), the AttributeError of calling astype on a plain Python list. -/
def reclassify_raster (st : RioRasterH) (thresholds : Thresholds)
    (band : Option Nat) (nodata : ℚ) : RioRasterH × Except PyErr RioRasterH :=
  match st.dataset with
  | none => (st, .error (.attributeError "NoneType object has no attribute meta"))
  | some ds =>
      let _nodata1 : ℚ :=
        match ds.meta.nodata with
        | some v => if v != nodata then v else nodata
        | none => nodata
      let _thresholds := thresholds
      let _band := band
      let no_of_bands := get_spectral_resolution ds
      match reclassifyBands ds no_of_bands with
      | .error e => (st, .error e)
      | .ok _ =>
          (st, .error (.attributeError "list object has no attribute astype"))

/-! ## Shared helper lemmas and sample data -/

lemma except_bind_error {α β : Type} (e : PyErr) (f : α → Except PyErr β) :
    ((Except.error e : Except PyErr α) >>= f) = Except.error e := rfl

/-- A 4x4 single-band uint8 raster with unit pixels, origin (0, 10), extent
x in [0, 4] and y in [6, 10]. -/
def t0 : AffineT := { a := 1, b := 0, c := 0, d := 0, e := -1, f := 10 }

def meta0 : DsMeta :=
  { driver := "GTiff", width := 4, height := 4, count := 1, dtype := "uint8",
    crs := "EPSG:4326", transform := t0, nodata := some 0 }

def ds0 : Dataset :=
  { name := "r.tif", meta := meta0,
    data := [[[1, 2, 3, 4], [5, 6, 7, 8], [9, 10, 11, 12], [13, 14, 15, 16]]],
    descriptions := [none] }

def st0 : RioRasterH := { dataset := some ds0 }

/-- A reprojection stand-in that returns the AOI unchanged. -/
def idToCrs : ToCrsFn := fun g _ => g

/-- A reprojection stand-in that retags the AOI with the target CRS. -/
def tagToCrs : ToCrsFn := fun g c => { g with crs := c }

/-- A concrete mask routine stand-in returning a fixed 1x2x2 crop. -/
def mf0 : MaskFn := fun _ _ _ => ([[[5, 5], [5, 5]]], t0)

/-- An AOI far away from ds0 (no bounding-box intersection). -/
def aoiFar : GeoDataFrame :=
  { crs := "EPSG:4326", features := [{ minx := 100, miny := 100, maxx := 101, maxy := 101 }] }

/-- An AOI overlapping ds0. -/
def aoiNear : GeoDataFrame :=
  { crs := "EPSG:4326", features := [{ minx := 1, miny := 7, maxx := 3, maxy := 9 }] }

/-- An AOI overlapping ds0 whose CRS string differs from the raster CRS only
by letter case. -/
def aoiLc : GeoDataFrame :=
  { crs := "epsg:4326", features := [{ minx := 1, miny := 7, maxx := 3, maxy := 9 }] }

/-- An AOI overlapping ds0 with a genuinely different CRS. -/
def aoiMerc : GeoDataFrame :=
  { crs := "EPSG:3857", features := [{ minx := 1, miny := 7, maxx := 3, maxy := 9 }] }

/-! ## C1: clip short-circuits to empty results on a non-intersecting AOI -/

/-- C1: for every raster handle and every AOI whose feature bounding boxes (of
the CRS-normalized AOI the code tests) all fail to intersect the raster
bounding box, clip_raster returns an empty handle, nulls the calling handle's
dataset exactly when in_place is set, and never invokes the mask routine. -/
theorem clip_no_intersection_empty (maskFn : MaskFn) (toCrs : ToCrsFn)
    (st : RioRasterH) (ds : Dataset) (aoiIn : AoiInput) (in_place : Bool)
    (crsParam : String) (hds : st.dataset = some ds)
    (hni : (clipNormGeo toCrs (normAoi aoiIn crsParam) ds.meta.crs).features.all
        (fun fe => !(boxIntersects (get_bounds ds) fe)) = true) :
    clip_raster maskFn toCrs st aoiIn in_place crsParam =
      .ok { selfH := if in_place then { dataset := none } else st,
            result := { dataset := none }, maskCall := none } := by
  simp [clip_raster, clipFromGeo, hds, hni]

/-- Witness for C1 at concrete inputs: ds0 clipped in place by the far-away
AOI comes back empty with the caller nulled and no mask call. -/
theorem clip_no_intersection_empty_witness :
    clip_raster mf0 idToCrs st0 (.gdf aoiFar) true "0" =
      .ok { selfH := { dataset := none }, result := { dataset := none },
            maskCall := none } :=
  clip_no_intersection_empty mf0 idToCrs st0 ds0 (.gdf aoiFar) true "0" rfl (by
    simp [clipNormGeo, idToCrs, normAoi, aoiFar, ds0, meta0, t0, get_bounds, boxIntersects]
    norm_num)

/-! ## C2: clip masks with crop=True, nodata fixed to 0, and derives metadata -/

/-- C2: for every raster handle and every AOI that does intersect, clip_raster
invokes the mask routine with cropping enabled and the nodata sentinel fixed to
the literal 0, and the materialized dataset has driver GTiff, height and width
from the cropped array shape, the transform the mask routine returned, nodata
0, the unchanged source CRS, and the source band descriptions. -/
theorem clip_mask_fixed_nodata_meta (maskFn : MaskFn) (toCrs : ToCrsFn)
    (st : RioRasterH) (ds : Dataset) (aoiIn : AoiInput) (in_place : Bool)
    (crsParam : String) (hds : st.dataset = some ds)
    (hint : (clipNormGeo toCrs (normAoi aoiIn crsParam) ds.meta.crs).features.all
        (fun fe => !(boxIntersects (get_bounds ds) fe)) = false) :
    ∃ d : Dataset,
      clip_raster maskFn toCrs st aoiIn in_place crsParam =
        .ok { selfH := if in_place then { dataset := some d } else st,
              result := { dataset := some d },
              maskCall := some { crop := true, nodata := 0 } }
      ∧ d.meta.driver = "GTiff"
      ∧ d.meta.height =
          (((maskFn ds (clipNormGeo toCrs (normAoi aoiIn crsParam) ds.meta.crs).features
              { crop := true, nodata := 0 }).1.headD []).length : Int)
      ∧ d.meta.width =
          ((((maskFn ds (clipNormGeo toCrs (normAoi aoiIn crsParam) ds.meta.crs).features
              { crop := true, nodata := 0 }).1.headD []).headD []).length : Int)
      ∧ d.meta.transform =
          (maskFn ds (clipNormGeo toCrs (normAoi aoiIn crsParam) ds.meta.crs).features
            { crop := true, nodata := 0 }).2
      ∧ d.meta.nodata = some 0
      ∧ d.meta.crs = ds.meta.crs
      ∧ d.descriptions = ds.descriptions := by
  refine ⟨mkMemDataset
      (maskFn ds (clipNormGeo toCrs (normAoi aoiIn crsParam) ds.meta.crs).features
        { crop := true, nodata := 0 }).1
      { ds.meta with
          driver := "GTiff",
          height :=
            (((maskFn ds (clipNormGeo toCrs (normAoi aoiIn crsParam) ds.meta.crs).features
                { crop := true, nodata := 0 }).1.headD []).length : Int),
          width :=
            ((((maskFn ds (clipNormGeo toCrs (normAoi aoiIn crsParam) ds.meta.crs).features
                { crop := true, nodata := 0 }).1.headD []).headD []).length : Int),
          transform :=
            (maskFn ds (clipNormGeo toCrs (normAoi aoiIn crsParam) ds.meta.crs).features
              { crop := true, nodata := 0 }).2,
          nodata := some 0,
          crs := ds.meta.crs }
      (some ds.descriptions), ?_, rfl, rfl, rfl, rfl, rfl, rfl, rfl⟩
  cases in_place <;>
    simp [clip_raster, clipFromGeo, hds, hint, rio_dataset_from_array, mkMemDataset]

/-- Witness for C2 at concrete inputs: ds0 clipped (copy-returning) by the
overlapping AOI. -/
theorem clip_mask_fixed_nodata_meta_witness :
    ∃ d : Dataset,
      clip_raster mf0 idToCrs st0 (.gdf aoiNear) false "0" =
        .ok { selfH := st0, result := { dataset := some d },
              maskCall := some { crop := true, nodata := 0 } }
      ∧ d.meta.driver = "GTiff"
      ∧ d.meta.height =
          (((mf0 ds0 (clipNormGeo idToCrs (normAoi (.gdf aoiNear) "0") ds0.meta.crs).features
              { crop := true, nodata := 0 }).1.headD []).length : Int)
      ∧ d.meta.width =
          ((((mf0 ds0 (clipNormGeo idToCrs (normAoi (.gdf aoiNear) "0") ds0.meta.crs).features
              { crop := true, nodata := 0 }).1.headD []).headD []).length : Int)
      ∧ d.meta.transform =
          (mf0 ds0 (clipNormGeo idToCrs (normAoi (.gdf aoiNear) "0") ds0.meta.crs).features
            { crop := true, nodata := 0 }).2
      ∧ d.meta.nodata = some 0
      ∧ d.meta.crs = ds0.meta.crs
      ∧ d.descriptions = ds0.descriptions :=
  clip_mask_fixed_nodata_meta mf0 idToCrs st0 ds0 (.gdf aoiNear) false "0" rfl (by
    simp [clipNormGeo, idToCrs, normAoi, aoiNear, ds0, meta0, t0, get_bounds, boxIntersects]
    norm_num)

/-! ## C9: AOI reprojection is triggered by case-insensitive CRS comparison -/

/-- C9: clip_raster reprojects the AOI exactly when the lowercased CRS strings
differ: when they agree the AOI is consumed as supplied (for any reprojection
routine), and when they differ the clip proceeds on the reprojected AOI. -/
theorem clip_crs_case_insensitive (maskFn : MaskFn) (toCrs : ToCrsFn)
    (st : RioRasterH) (ds : Dataset) (aoi : GeoDataFrame) (in_place : Bool)
    (crsParam : String) (hds : st.dataset = some ds) :
    (strLower aoi.crs = strLower ds.meta.crs →
        clip_raster maskFn toCrs st (.gdf aoi) in_place crsParam =
          clipFromGeo maskFn st ds aoi in_place)
    ∧ (strLower aoi.crs ≠ strLower ds.meta.crs →
        clip_raster maskFn toCrs st (.gdf aoi) in_place crsParam =
          clipFromGeo maskFn st ds (toCrs aoi ds.meta.crs) in_place) := by
  constructor
  · intro h
    simp [clip_raster, clipNormGeo, normAoi, hds, h]
  · intro h
    simp [clip_raster, clipNormGeo, normAoi, hds, h]

/-- Witness for C9 at concrete inputs: a CRS differing only by case is
consumed as supplied, a genuinely different CRS is reprojected first. -/
theorem clip_crs_case_insensitive_witness :
    (clip_raster mf0 tagToCrs st0 (.gdf aoiLc) true "0" =
        clipFromGeo mf0 st0 ds0 aoiLc true)
    ∧ (clip_raster mf0 tagToCrs st0 (.gdf aoiMerc) true "0" =
        clipFromGeo mf0 st0 ds0 (tagToCrs aoiMerc ds0.meta.crs) true) :=
  ⟨(clip_crs_case_insensitive mf0 tagToCrs st0 ds0 aoiLc true "0" rfl).1 (by decide),
   (clip_crs_case_insensitive mf0 tagToCrs st0 ds0 aoiMerc true "0" rfl).2 (by decide)⟩

/-! ## C3: reclassify_raster always hits the unresolvable BandProcess name -/

lemma reclassifyBandStep_err (ds : Dataset) (band_no : Nat) :
    reclassifyBandStep ds band_no =
      .error (.nameError "name BandProcess is not defined") := rfl

lemma reclassifyBands_error (ds : Dataset) (n : Nat) (h : 1 ≤ n) :
    reclassifyBands ds n = .error (.nameError "name BandProcess is not defined") := by
  obtain ⟨m, hm⟩ : ∃ m, n = m + 1 := ⟨n - 1, by omega⟩
  subst hm
  simp [reclassifyBands, List.range_succ_eq_map, List.foldlM_cons,
    reclassifyBandStep_err, except_bind_error]

/-- C3: on every non-empty raster handle (rasterio datasets always carry at
least one band), reclassify_raster fails with NameError while resolving the
global name BandProcess, which is neither imported nor defined in the module,
before producing any result and without touching the handle state. -/
theorem reclassify_nameerror_unchanged (st : RioRasterH) (ds : Dataset)
    (thresholds : Thresholds) (band : Option Nat) (nodata : ℚ)
    (hds : st.dataset = some ds) (hb : 1 ≤ ds.meta.count) :
    reclassify_raster st thresholds band nodata =
      (st, .error (.nameError "name BandProcess is not defined")) := by
  have hbands := reclassifyBands_error ds ds.meta.count hb
  simp [reclassify_raster, hds, get_spectral_resolution, hbands]

/-- Witness for C3 at a concrete non-empty handle. -/
theorem reclassify_nameerror_unchanged_witness :
    reclassify_raster st0 [] none 0 =
      (st0, .error (.nameError "name BandProcess is not defined")) :=
  reclassify_nameerror_unchanged st0 ds0 [] none 0 rfl (by decide)

/-! ## C8: the intended reclassification result is never produced -/

/-- The threshold rule set of the specification test scenario, scaled by 1000
to keep the bounds integral. -/
def specThresholds : Thresholds :=
  [("water", .lt 15, 4), ("built-up", .range 15 20, 1),
   ("barren", .range 70 270, 2), ("vegetation", .gt 270, 3)]

/-- A concrete 4x4 single-band float raster in the shape of the specification
reclassification scenario. -/
def c8ds : Dataset :=
  { name := "ndvi.tif",
    meta := { driver := "GTiff", width := 4, height := 4, count := 1,
              dtype := "float32", crs := "EPSG:4326", transform := t0,
              nodata := some 0 },
    data := [[[10, 20, 100, 300], [10, 20, 100, 300],
              [10, 20, 100, 300], [10, 20, 100, 300]]],
    descriptions := [none] }

/-- C8 evaluation at the failing input: instead of returning a new uint8
raster handle built from the source CRS, transform and nodata, the call fails
with NameError at the BandProcess lookup, so no handle is ever produced. -/
theorem reclassify_no_result_at_failing_input :
    reclassify_raster { dataset := some c8ds } specThresholds none 0 =
      ({ dataset := some c8ds },
        .error (.nameError "name BandProcess is not defined")) := rfl

/-! ## C4: the .prj sidecar never overrides the CRS -/

/-- WKT content of the sidecar in the C4 scenario. -/
def wkt0 : String := "GEOGCS WGS84 example"

/-- A filesystem holding the raster and an existing .prj sidecar. -/
def fs4 : FS := [("r.tif", .rasterFile ds0), ("area.prj", .textFile wkt0)]

/-- C4 evaluation at the failing input: opening r.tif with the existing
sidecar area.prj leaves the CRS at the dataset original EPSG:4326, because
add_crs_from_prj compares the splitext extension (which keeps its leading dot)
against the dotless literal prj; the WKT-parsed CRS is never applied. -/
theorem prj_sidecar_never_applied :
    ((rioRasterInit fs4 (some (.path "r.tif")) (some "area.prj")).dataset.map
        (fun d => d.meta.crs)) = some "EPSG:4326"
    ∧ (splitext "area.prj").2 = ".prj"
    ∧ crsFromWkt wkt0 ≠ "EPSG:4326" := by decide

/-! ## C5: a missing path raises inside open but the error is swallowed -/

/-- Counterexample to C5 as stated: at the concrete missing path the
constructor returns normally with an empty handle; the FileNotFoundError is
raised inside the try body of set_dataset but never reaches the caller. -/
theorem open_missing_path_counterexample :
    rioRasterInit [] (some (.path "missing.tif")) none = { dataset := none }
    ∧ set_dataset_try [] { dataset := none } (.path "missing.tif") =
        .error (.fileNotFound "Raster file not available at missing.tif") := by decide

/-- C5 as amended: for every filesystem and non-memory path that does not
exist, the try body of set_dataset raises FileNotFoundError, the handler
swallows it, and open returns normally with the handle left empty rather than
partially constructed. -/
theorem open_missing_leaves_empty (fs : FS) (s : String)
    (h1 : strIn "/vsimem/" s = false) (h2 : fsExists fs s = false) :
    rioRasterInit fs (some (.path s)) none = { dataset := none }
    ∧ set_dataset_try fs { dataset := none } (.path s) =
        .error (.fileNotFound ("Raster file not available at " ++ s)) := by
  have htry : set_dataset_try fs { dataset := none } (.path s) =
      .error (.fileNotFound ("Raster file not available at " ++ s)) := by
    simp [set_dataset_try, h1, h2, except_bind_error]
  exact ⟨by simp [rioRasterInit, set_dataset, htry], htry⟩

/-- Witness for C5 as amended, at a concrete absent path. -/
theorem open_missing_leaves_empty_witness :
    rioRasterInit [] (some (.path "absent.tif")) none = { dataset := none }
    ∧ set_dataset_try [] { dataset := none } (.path "absent.tif") =
        .error (.fileNotFound ("Raster file not available at " ++ "absent.tif")) :=
  open_missing_leaves_empty [] "absent.tif" (by decide) (by decide)

/-! ## C6: materialize/read round trip -/

/-- Band-major 3-D form of a raster array: a 2-D array gains a leading
singleton band axis, as a one-band dataset read always returns. -/
def to3D : ArrData → List Mat
  | .d2 m => [m]
  | .d3 l => l
  | _ => []

/-- Counterexample to C6 as stated: for a concrete 2-D array the round trip
returns the 3-D one-band stack, which is not equal to the original 2-D
array. -/
theorem materialize_roundtrip_2d_counterexample :
    ((raster_from_array { dtype := "uint8", data := .d2 [[1, 2], [3, 4]] }
        "EPSG:4326" t0 (some 0)).map (fun hdl => get_data_array hdl none))
      = some (.ok { dtype := "uint8", data := .d3 [[[1, 2], [3, 4]]] })
    ∧ ({ dtype := "uint8", data := ArrData.d3 [[[1, 2], [3, 4]]] } : NpArr) ≠
        { dtype := "uint8", data := ArrData.d2 [[1, 2], [3, 4]] } := by decide

/-- C6 as amended: materializing any 2-D or 3-D array and reading it back
returns the band-major 3-D form of the array with dtype preserved and values
unchanged (a 2-D array comes back under a leading singleton band axis), and
the handle CRS and affine transform equal the supplied ones exactly. -/
theorem materialize_roundtrip (arr : NpArr) (crs : String) (t : AffineT)
    (nd : Option ℚ) (h23 : arrIs23 arr.data = true) :
    ∃ hdl : RioRasterH,
      raster_from_array arr crs t nd = some hdl
      ∧ get_data_array hdl none = .ok { dtype := arr.dtype, data := .d3 (to3D arr.data) }
      ∧ get_crs hdl = .ok crs
      ∧ get_geo_transform hdl = .ok t := by
  obtain ⟨dt, dat⟩ := arr
  cases dat with
  | d0 x => simp [arrIs23] at h23
  | d1 v => simp [arrIs23] at h23
  | d2 m => exact ⟨_, rfl, rfl, rfl, rfl⟩
  | d3 l => exact ⟨_, rfl, rfl, rfl, rfl⟩

/-- Witness for C6 as amended, at a concrete 3-D array. -/
theorem materialize_roundtrip_witness :
    ∃ hdl : RioRasterH,
      raster_from_array { dtype := "int16", data := .d3 [[[7]]] } "EPSG:32643" t0 none
        = some hdl
      ∧ get_data_array hdl none =
          .ok { dtype := ({ dtype := "int16", data := ArrData.d3 [[[7]]] } : NpArr).dtype,
                data := .d3 (to3D ({ dtype := "int16", data := ArrData.d3 [[[7]]] } : NpArr).data) }
      ∧ get_crs hdl = .ok "EPSG:32643"
      ∧ get_geo_transform hdl = .ok t0 :=
  materialize_roundtrip { dtype := "int16", data := .d3 [[[7]]] } "EPSG:32643" t0 none
    (by decide)

/-! ## C7: pad_raster aligned to itself preserves transform, width, height -/

lemma pyFloor_zero : pyFloor 0 = 0 := by
  norm_num [pyFloor]

lemma rowcolOne_origin (t : AffineT) : rowcolOne t t.c t.f = (0, 0) := by
  simp [rowcolOne, pyFloor_zero]

lemma rowcolOne_corner (t : AffineT) (w h : ℤ)
    (hdet : t.a * t.e - t.b * t.d ≠ 0) :
    rowcolOne t (t.a * (w : ℚ) + t.b * (h : ℚ) + t.c)
      (t.d * (w : ℚ) + t.e * (h : ℚ) + t.f) = (h, w) := by
  unfold rowcolOne
  have hc : (t.e * ((t.a * (w : ℚ) + t.b * (h : ℚ) + t.c) - t.c)
      - t.b * ((t.d * (w : ℚ) + t.e * (h : ℚ) + t.f) - t.f))
      / (t.a * t.e - t.b * t.d) = ((w : ℤ) : ℚ) := by
    field_simp
    ring
  have hr : (-t.d * ((t.a * (w : ℚ) + t.b * (h : ℚ) + t.c) - t.c)
      + t.a * ((t.d * (w : ℚ) + t.e * (h : ℚ) + t.f) - t.f))
      / (t.a * t.e - t.b * t.d) = ((h : ℤ) : ℚ) := by
    field_simp
    ring
  simp only [hc, hr, pyFloor_intCast]

lemma windowTransform_zero (t : AffineT) : windowTransform t 0 0 = t := by
  cases t
  simp [windowTransform]

/-- C7: padding a non-empty raster against itself is idempotent: the handle
afterwards carries the original affine transform, width and height (on the
degenerate non-invertible transform the library raises and the handle is left
untouched, so the three values are again unchanged). -/
theorem pad_self_idempotent (st : RioRasterH) (ds : Dataset)
    (hds : st.dataset = some ds) :
    ((pad_raster st st).1.dataset.map
        (fun d => (d.meta.transform, d.meta.width, d.meta.height)))
      = some (ds.meta.transform, ds.meta.width, ds.meta.height) := by
  by_cases hdet : ds.meta.transform.a * ds.meta.transform.e
      - ds.meta.transform.b * ds.meta.transform.d = 0
  · simp [pad_raster, hds, hdet]
  · have h0 := rowcolOne_origin ds.meta.transform
    have h1 := rowcolOne_corner ds.meta.transform ds.meta.width ds.meta.height hdet
    simp [pad_raster, hds, get_bounds, hdet, h0, h1, windowTransform_zero]

/-- Witness for C7 at the concrete raster ds0. -/
theorem pad_self_idempotent_witness :
    ((pad_raster st0 st0).1.dataset.map
        (fun d => (d.meta.transform, d.meta.width, d.meta.height)))
      = some (ds0.meta.transform, ds0.meta.width, ds0.meta.height) :=
  pad_self_idempotent st0 ds0 rfl

/-! ## C10: write_to_file creates a directory at the destination and swallows
the resulting write failure -/

/-- C10: for every destination path that does not yet exist, write_to_file
first creates a directory at that very path, the subsequent open-for-write
fails against the just-created directory with a rasterio I/O error that is
caught and printed, the call returns normally (no escaping exception), and the
destination holds a directory, not a raster file. -/
theorem write_to_file_dir_then_swallowed_error (fs : FS) (p : String)
    (data : NpArr) (crs : String) (tr : AffineT) (nd : Option ℚ)
    (names : List String) (hfresh : fsLookup fs p = none)
    (h23 : arrIs23 data.data = true) :
    write_to_file fs p data crs tr nd names = ((p, FSEntry.dir) :: fs, none)
    ∧ fsLookup ((p, FSEntry.dir) :: fs) p = some FSEntry.dir := by
  have hmk : makedirsExistOk fs p = .ok ((p, FSEntry.dir) :: fs) := by
    simp [makedirsExistOk, hfresh]
  have hopen : ∀ d : Dataset, rioOpenWrite ((p, FSEntry.dir) :: fs) p d =
      .error (.rasterioIOError ("Attempt to create new tiff file " ++ p ++ " failed")) := by
    intro d
    simp [rioOpenWrite, fsLookup]
  obtain ⟨dt, dat⟩ := data
  refine ⟨?_, by simp [fsLookup]⟩
  cases dat with
  | d0 x => simp [arrIs23] at h23
  | d1 v => simp [arrIs23] at h23
  | d2 m => simp [write_to_file, hmk, shapeBandsRowsCols, hopen]
  | d3 l => simp [write_to_file, hmk, shapeBandsRowsCols, hopen]

/-- Witness for C10 at a concrete fresh destination. -/
theorem write_to_file_dir_then_swallowed_error_witness :
    write_to_file [] "out.tif" { dtype := "uint8", data := .d2 [[1]] }
        "EPSG:4326" t0 none [] = ([("out.tif", FSEntry.dir)], none)
    ∧ fsLookup [("out.tif", FSEntry.dir)] "out.tif" = some FSEntry.dir :=
  write_to_file_dir_then_swallowed_error [] "out.tif"
    { dtype := "uint8", data := .d2 [[1]] } "EPSG:4326" t0 none [] rfl (by decide)

end DAR
